import Mathlib

/-!
Shallow embedding of `nicer` (src/main.rs): a supervisor that lowers its own
scheduling priority, spawns a child program, optionally takes a wakelock,
installs a SIGINT-forwarding handler, waits for the child and translates the
child's exit outcome into its own exit code.

OS calls are modelled by oracle values (the statuses and errno values the
calls would return); the control flow of the Rust functions is translated
branch by branch.  The observable effects of a run are recorded as a list of
events.
-/

namespace Nicer

/-- Target platform, selecting among the `cfg`-gated variants of
`nice_process` and `wakelock` and the `cfg`-gated blocks of `main`. -/
inductive Platform
  | linux
  | macos
  | windows
deriving DecidableEq, Repr

/-- Parsed command line (struct `Opt`): wakelock flag, program, arguments. -/
structure Invocation where
  caffeinate : Bool
  program : String
  args : List String
deriving DecidableEq, Repr

/-- Result of `Child::wait` (`std::process::ExitStatus`): `code` is
`status.code()`, `signal` is `status.signal()` (Unix only; ignored on
Windows). -/
structure ChildStatus where
  code : Option Int
  signal : Option Int
deriving DecidableEq, Repr

/-- OS oracle for the Linux `nice_process`: the return status of
`libc::setpriority(PRIO_PROCESS, 0, 19)` and of the `ioprio_set` syscall,
each with the `raw_os_error()` value observed after a failure. -/
structure LinuxPriorityEnv where
  setpriorityStatus : Int
  setpriorityErrno : Option Int
  ioprioStatus : Int
  ioprioErrno : Option Int
deriving DecidableEq, Repr

/-- Second half of the Linux `nice_process`: the
`syscall(SYS_ioprio_set, IOPRIO_WHO_PGRP, 0, IOPRIO_CLASS_IDLE)` call.
Status `0` succeeds; otherwise a raw OS error of `Some(0)` is forgiven and
any other error is returned. -/
def ioprioStep (e : LinuxPriorityEnv) : Except (Option Int) Unit :=
  if e.ioprioStatus = 0 then .ok ()
  else if e.ioprioErrno = some 0 then .ok ()
  else .error e.ioprioErrno

/-- Linux `nice_process` (cfg `unix, not macos`): `setpriority` first, with
the same zero-errno forgiveness, then the `ioprio_set` step. -/
def niceProcessLinux (e : LinuxPriorityEnv) : Except (Option Int) Unit :=
  if e.setpriorityStatus = 0 then ioprioStep e
  else if e.setpriorityErrno = some 0 then ioprioStep e
  else .error e.setpriorityErrno

/-- OS oracle for the macOS `nice_process`: status of
`libc::setpriority(PRIO_DARWIN_PROCESS, 0, PRIO_DARWIN_BG)` and the
`raw_os_error()` value observed after a failure. -/
structure MacPriorityEnv where
  setpriorityStatus : Int
  setpriorityErrno : Option Int
deriving DecidableEq, Repr

/-- macOS `nice_process` (cfg `unix, macos`): one `setpriority` call, status
`0` succeeds, raw OS error `Some(0)` is forgiven, anything else is an
error. -/
def niceProcessMacos (e : MacPriorityEnv) : Except (Option Int) Unit :=
  if e.setpriorityStatus = 0 then .ok ()
  else if e.setpriorityErrno = some 0 then .ok ()
  else .error e.setpriorityErrno

/-- OS oracle for the Windows `nice_process`: whether
`SetPriorityClass(GetCurrentProcess(), IDLE_PRIORITY_CLASS)` reports
success, and the `GetLastError` value when it does not. -/
structure WindowsPriorityEnv where
  setPriorityClassOk : Bool
  lastError : Int
deriving DecidableEq, Repr

/-- Modelled library behaviour of the `windows` crate: a failing
`SetPriorityClass` (BOOL false) is converted to `Err` carrying the
`GetLastError` value, succeeding one to `Ok(())`.  There is no special case
for a zero error value. -/
def setPriorityClassResult (e : WindowsPriorityEnv) : Except Int Unit :=
  if e.setPriorityClassOk then .ok () else .error e.lastError

/-- Windows `nice_process` (cfg `windows`): propagates the
`SetPriorityClass` result unchanged (`with_context` only adds a message). -/
def niceProcessWindows (e : WindowsPriorityEnv) : Except Int Unit :=
  setPriorityClassResult e

/-- Observable events of a supervisor run, in program order. -/
inductive Event
  | niceAttempt
  | spawnAttempt (program : String) (args : List String)
  | wakelockCall (program : String) (pid : Nat)
  | assertionCall (details : String)
  | sleepPreventionCall
  | diagnosticNotice (msg : String)
  | handlerInstall
  | lockAcquire
  | readPid
  | lockRelease
  | waitCall
  | sigintAttempt (pid : Nat)
  | exitCall (code : Int)
deriving DecidableEq, Repr

/-- Escaping performed by Rust's `Debug` formatting (`{:?}`) of a `str`
(`escape_debug`): the double quote and backslash are backslash-escaped,
newline, tab, carriage return and NUL get their mnemonic escapes, every
other control character (including DEL) is rendered as a braced lowercase
hexadecimal `\u` escape, and printable characters map to themselves.
(Rust also `\u`-escapes some non-printable code points above U+007F, which
no branch below reaches for the ASCII range this development quantifies
over.) -/
def rustCharEscapeDebug (c : Char) : List Char :=
  if c = '"' then ['\\', '"']
  else if c = '\\' then ['\\', '\\']
  else if c = '\n' then ['\\', 'n']
  else if c = '\t' then ['\\', 't']
  else if c = '\r' then ['\\', 'r']
  else if c = '\x00' then ['\\', '0']
  else if c.toNat < 32 ∨ c.toNat = 127 then
    '\\' :: 'u' :: '\x7b' :: (Nat.toDigits 16 c.toNat ++ ['\x7d'])
  else [c]

/-- Rust `Debug` formatting of a `str`: the escaped characters wrapped in
double quotes. -/
def rustStrDebug (s : String) : String :=
  ⟨'"' :: (s.data.map rustCharEscapeDebug).flatten ++ ['"']⟩

/-- Details string built by the macOS `wakelock` for
`IOPMAssertionCreateWithDescription`:
`format!("Hi from Rust! We're keeping your Mac awake on behalf of {:?} (pid {})", process, pid)`. -/
def wakelockDetails (process : String) (pid : Nat) : String :=
  "Hi from Rust! We\'re keeping your Mac awake on behalf of " ++
    rustStrDebug process ++ " (pid " ++ toString pid ++ ")"

/-- The `wakelock` function, per platform.  The macOS variant calls
`IOPMAssertionCreateWithDescription` and discards both its return status and
the assertion id it wrote (`assertionStatus`, `assertionId` oracle values are
unused); the Windows variant calls `SetThreadExecutionState`; the Linux
variant only prints a diagnostic to stderr.  All variants return unit. -/
def wakelockRun (plat : Platform) (process : String) (pid : Nat)
    (_assertionStatus : Int) (_assertionId : Nat) : List Event :=
  match plat with
  | .macos => [.wakelockCall process pid, .assertionCall (wakelockDetails process pid)]
  | .windows => [.wakelockCall process pid, .sleepPreventionCall]
  | .linux => [.wakelockCall process pid,
      .diagnosticNotice "Linux has no caffeine, sadly."]

/-- Events that arise only from a call to `wakelock`. -/
def isWakelockEvent : Event → Bool
  | .wakelockCall _ _ => true
  | .assertionCall _ => true
  | .sleepPreventionCall => true
  | .diagnosticNotice _ => true
  | _ => false

/-- Platform sleep-prevention OS calls (`IOPMAssertionCreateWithDescription`
on macOS, `SetThreadExecutionState` on Windows). -/
def isSleepPreventionCall : Event → Bool
  | .assertionCall _ => true
  | .sleepPreventionCall => true
  | _ => false

/-- Final outcome of `main`: a `process::exit` code, or an error returned
from `main` (anyhow), one constructor per `context` site. -/
inductive Outcome
  | exitCode (c : Int)
  | priorityError (e : Option Int)
  | spawnError
  | handlerInstallError
  | waitError
deriving DecidableEq, Repr

/-- Oracle values for one run of `main`: the `nice_process` result, the
spawn result (`some pid` or failure), whether `ctrlc::set_handler`
registration succeeds, the `wait` result, and the macOS assertion-creation
oracle (status returned and id written, both discarded by the code). -/
structure RunEnv where
  niceResult : Except (Option Int) Unit
  spawnPid : Option Nat
  installOk : Bool
  waitResult : Option ChildStatus
  assertionStatus : Int
  assertionId : Nat

/-- Unix exit translation in `main`: `status.code()` if present, otherwise
`status.signal().unwrap_or_else(|| 9) + 128`. -/
def translateUnix (st : ChildStatus) : Int :=
  match st.code with
  | some i => i
  | none => st.signal.getD 9 + 128

/-- Windows exit translation in `main`: `status.code()` if present,
otherwise the fixed fallback `127`. -/
def translateWindows (st : ChildStatus) : Int :=
  match st.code with
  | some i => i
  | none => 127

/-- Exit translation selected by platform (`cfg(unix)` / `cfg(windows)`). -/
def translateExit (plat : Platform) (st : ChildStatus) : Int :=
  match plat with
  | .windows => translateWindows st
  | _ => translateUnix st

/-- The final waiting statement of `main`:
`arc.lock().unwrap().wait().context(..)?` followed by the exit match.  The
`MutexGuard` temporary produced by `lock()` lives until the end of the
`let` statement, so the lock is acquired before `wait` and released only
after `wait` returns (also on the error path, during unwinding of the
statement). -/
def waitPhase (plat : Platform) (waitResult : Option ChildStatus) :
    List Event × Outcome :=
  match waitResult with
  | none => ([.lockAcquire, .waitCall, .lockRelease], .waitError)
  | some st => ([.lockAcquire, .waitCall, .lockRelease,
      .exitCall (translateExit plat st)], .exitCode (translateExit plat st))

/-- The body of `main`: `nice_process()?`, then spawn (fatal on failure),
then `wakelock` only if `caffeinate` is set, then (Unix only) handler
installation (fatal on failure), then the guarded wait and exit
translation. -/
def mainRun (plat : Platform) (inv : Invocation) (env : RunEnv) :
    List Event × Outcome :=
  match env.niceResult with
  | .error e => ([.niceAttempt], .priorityError e)
  | .ok _ =>
    match env.spawnPid with
    | none => ([.niceAttempt, .spawnAttempt inv.program inv.args], .spawnError)
    | some pid =>
      let pre : List Event :=
        [.niceAttempt, .spawnAttempt inv.program inv.args] ++
          (if inv.caffeinate then
            wakelockRun plat inv.program pid env.assertionStatus env.assertionId
          else [])
      match plat with
      | .windows =>
        let w := waitPhase .windows env.waitResult
        (pre ++ w.1, w.2)
      | plat =>
        if env.installOk then
          let w := waitPhase plat env.waitResult
          (pre ++ [Event.handlerInstall] ++ w.1, w.2)
        else (pre ++ [Event.handlerInstall], .handlerInstallError)

/-- Result of one firing of the ctrl-c handler closure: normal return, or a
panic (the `unwrap()` on a failed `kill`), modelled as abrupt abnormal
termination with the panic message. -/
inductive HandlerResult
  | returned
  | panicked (msg : String)
deriving DecidableEq, Repr

/-- The installed handler closure: it locks the shared `Arc<Mutex<Child>>`,
reads the child's pid (`arc_handler.lock().unwrap().id()`, whose guard
temporary is dropped at the end of that statement), then calls
`kill(pid, Signal::SIGINT)`; a delivery failure is not caught but unwrapped,
panicking with the context message. -/
def handlerRun (childPid : Nat) (killOk : Bool) : List Event × HandlerResult :=
  ([.lockAcquire, .readPid, .lockRelease, .sigintAttempt childPid],
    if killOk then .returned else .panicked "Unable to kill the program")

/-- Observable state of a run in which the installed handler fired once:
the main thread's trace and outcome next to the handler thread's trace and
result. -/
structure ThreadedRun where
  mainEvents : List Event
  outcome : Outcome
  handlerEvents : List Event
  handlerResult : HandlerResult
deriving DecidableEq, Repr

/-- Modelled library behaviour of `ctrlc` and of Rust's default unwind
panic strategy: the handler closure runs on a dedicated handler thread, so
a panic raised by its `unwrap()` unwinds and terminates that thread only,
while the main thread keeps blocking in `wait()` and finishes the run as
usual.  Nothing in the crate sources selects `panic = "abort"`. -/
def runWithInterrupt (plat : Platform) (inv : Invocation) (env : RunEnv)
    (childPid : Nat) (killOk : Bool) : ThreadedRun :=
  let m := mainRun plat inv env
  let h := handlerRun childPid killOk
  ⟨m.1, m.2, h.1, h.2⟩

/-- Helper: `String.append` acts as list append on the underlying data. -/
theorem strDataAppend (s t : String) : (s ++ t).data = s.data ++ t.data := rfl

/-- Helper: when no character of `l` is altered by the Debug escaping, the
escaped concatenation is `l` itself. -/
theorem flattenMapEscape (l : List Char) (h : ∀ c ∈ l, rustCharEscapeDebug c = [c]) :
    (l.map rustCharEscapeDebug).flatten = l := by
  induction l with
  | nil => rfl
  | cons c cs ih =>
    simp only [List.map_cons, List.flatten_cons, h c (by simp)]
    simp [ih (fun d hd => h d (by simp [hd]))]

/-- C1: exit translation.  On the successful path, `main` exits with the
translated status; a reported exit code is propagated exactly; on Unix a
missing code maps to `128 + signal`, and `137` when the signal is also
unknown; on Windows a missing code maps to the fixed fallback `127`. -/
theorem exit_translation :
    (∀ (plat : Platform) (inv : Invocation) (env : RunEnv) (pid : Nat)
        (st : ChildStatus),
      env.niceResult = .ok () → env.spawnPid = some pid → env.installOk = true →
      env.waitResult = some st →
      (mainRun plat inv env).2 = .exitCode (translateExit plat st)) ∧
    (∀ (plat : Platform) (st : ChildStatus) (c : Int),
      st.code = some c → translateExit plat st = c) ∧
    (∀ (st : ChildStatus) (s : Int),
      st.code = none → st.signal = some s → translateUnix st = 128 + s) ∧
    (∀ st : ChildStatus, st.code = none → st.signal = none →
      translateUnix st = 137) ∧
    (∀ st : ChildStatus, st.code = none → translateWindows st = 127) := by
  refine ⟨?_, ?_, ?_, ?_, ?_⟩
  · intro plat inv env pid st h1 h2 h3 h4
    cases plat <;> simp [mainRun, h1, h2, h3, h4, waitPhase]
  · intro plat st c h
    cases plat <;> simp [translateExit, translateUnix, translateWindows, h]
  · intro st s h1 h2
    simp [translateUnix, h1, h2]
    omega
  · intro st h1 h2
    simp [translateUnix, h1, h2]
  · intro st h
    simp [translateWindows, h]

/-- Witness for C1 at a concrete run: child exits with code 3, supervisor
exits with code 3. -/
theorem exit_translation_witness :
    (mainRun .linux ⟨false, "cp", []⟩
      ⟨.ok (), some 5, true, some ⟨some 3, none⟩, 0, 0⟩).2 = .exitCode 3 :=
  exit_translation.1 .linux ⟨false, "cp", []⟩
    ⟨.ok (), some 5, true, some ⟨some 3, none⟩, 0, 0⟩ 5 ⟨some 3, none⟩
    rfl rfl rfl rfl

/-- C2 counterexample: on Windows, a failing `SetPriorityClass` whose raw
error value is zero still makes `nice_process` return an error — the
zero-error forgiveness exists only in the Unix variants. -/
theorem nice_error_zero_windows_counterexample :
    niceProcessWindows ⟨false, 0⟩ = .error 0 := rfl

/-- C2 (amended): the Unix variants of `nice_process` succeed exactly when
each underlying call returns success or signals raw OS error zero; the
Windows variant succeeds exactly when `SetPriorityClass` reports success,
with no zero-error forgiveness; any `nice_process` error aborts the run
before the spawn is attempted. -/
theorem nice_process_failure_policy :
    (∀ e : LinuxPriorityEnv, niceProcessLinux e = .ok () ↔
      ((e.setpriorityStatus = 0 ∨ e.setpriorityErrno = some 0) ∧
        (e.ioprioStatus = 0 ∨ e.ioprioErrno = some 0))) ∧
    (∀ e : MacPriorityEnv, niceProcessMacos e = .ok () ↔
      (e.setpriorityStatus = 0 ∨ e.setpriorityErrno = some 0)) ∧
    (∀ e : WindowsPriorityEnv, niceProcessWindows e = .ok () ↔
      e.setPriorityClassOk = true) ∧
    (∀ (plat : Platform) (inv : Invocation) (env : RunEnv) (err : Option Int),
      env.niceResult = .error err →
      mainRun plat inv env = ([.niceAttempt], .priorityError err)) := by
  refine ⟨?_, ?_, ?_, ?_⟩
  · intro e
    unfold niceProcessLinux ioprioStep
    split_ifs <;> simp_all
  · intro e
    unfold niceProcessMacos
    split_ifs <;> simp_all
  · intro e
    unfold niceProcessWindows setPriorityClassResult
    split_ifs <;> simp_all
  · intro plat inv env err h
    simp [mainRun, h]

/-- Witness for C2 at a concrete run: a macOS priority error (errno 13)
aborts startup with no spawn attempt. -/
theorem nice_process_failure_policy_witness :
    mainRun .macos ⟨true, "x", []⟩ ⟨.error (some 13), none, true, none, 0, 0⟩ =
      ([.niceAttempt], .priorityError (some 13)) :=
  nice_process_failure_policy.2.2.2 .macos ⟨true, "x", []⟩
    ⟨.error (some 13), none, true, none, 0, 0⟩ (some 13) rfl

/-- C3: spawn failure is atomic — when the spawn fails, the run ends in
`spawnError` right after the spawn attempt, with no wakelock activity, no
handler installation and no wait, on every platform and even with the
caffeinate flag set. -/
theorem spawn_failure_atomic :
    ∀ (plat : Platform) (inv : Invocation) (env : RunEnv),
      env.niceResult = .ok () → env.spawnPid = none →
      mainRun plat inv env =
        ([.niceAttempt, .spawnAttempt inv.program inv.args], .spawnError) ∧
      ((mainRun plat inv env).1.all fun ev =>
        !isWakelockEvent ev && !(ev == Event.handlerInstall) &&
          !(ev == Event.waitCall)) = true := by
  intro plat inv env h1 h2
  constructor
  · cases plat <;> simp [mainRun, h1, h2]
  · cases plat <;> simp [mainRun, h1, h2, isWakelockEvent]

/-- Witness for C3 at a concrete run with the caffeinate flag set. -/
theorem spawn_failure_atomic_witness :
    mainRun .macos ⟨true, "nope", ["a"]⟩ ⟨.ok (), none, true, none, 0, 0⟩ =
        ([.niceAttempt, .spawnAttempt "nope" ["a"]], .spawnError) ∧
      ((mainRun .macos ⟨true, "nope", ["a"]⟩
          ⟨.ok (), none, true, none, 0, 0⟩).1.all fun ev =>
        !isWakelockEvent ev && !(ev == Event.handlerInstall) &&
          !(ev == Event.waitCall)) = true :=
  spawn_failure_atomic .macos ⟨true, "nope", ["a"]⟩
    ⟨.ok (), none, true, none, 0, 0⟩ rfl rfl

/-- C4: wakelock frame condition.  With the caffeinate flag unset the
outcome is the same as with it set, the event trace is the trace of the
flag-set run with exactly the wakelock events removed, and the flag-unset
run contains no wakelock event at all. -/
theorem caffeinate_unset_frame :
    ∀ (plat : Platform) (program : String) (args : List String) (env : RunEnv),
      (mainRun plat ⟨false, program, args⟩ env).2 =
        (mainRun plat ⟨true, program, args⟩ env).2 ∧
      (mainRun plat ⟨false, program, args⟩ env).1 =
        (mainRun plat ⟨true, program, args⟩ env).1.filter
          (fun ev => !isWakelockEvent ev) ∧
      ((mainRun plat ⟨false, program, args⟩ env).1.all
        fun ev => !isWakelockEvent ev) = true := by
  intro plat program args env
  obtain ⟨nice, spawn, install, wait, s, i⟩ := env
  cases nice <;> cases spawn <;> cases plat <;> cases install <;> cases wait <;>
    simp [mainRun, waitPhase, wakelockRun, isWakelockEvent]

/-- C5: the installed SIGINT handler reads the child's pid under the shared
lock and delivers SIGINT to that pid, returning normally — it does not
terminate the supervisor. -/
theorem interrupt_forwarding_handler :
    ∀ childPid : Nat,
      handlerRun childPid true =
        ([.lockAcquire, .readPid, .lockRelease, .sigintAttempt childPid],
          .returned) :=
  fun _ => rfl

/-- C6: in the waiting statement `arc.lock().unwrap().wait()` the
`MutexGuard` temporary lives until the end of the statement, so the lock is
acquired immediately before the blocking wait and released only after it
returns: the trace contains `lockAcquire` directly followed by `waitCall`
(no release in between), i.e. the lock IS held across the blocking wait,
contrary to the stated discipline. -/
theorem lock_held_across_wait :
    ((mainRun .linux ⟨true, "sleep", ["60"]⟩
        ⟨.ok (), some 12345, true, some ⟨none, some 2⟩, 0, 0⟩).1 =
      [.niceAttempt, .spawnAttempt "sleep" ["60"], .wakelockCall "sleep" 12345,
        .diagnosticNotice "Linux has no caffeine, sadly.", .handlerInstall,
        .lockAcquire, .waitCall, .lockRelease, .exitCall 130]) ∧
    [Event.lockAcquire, Event.waitCall] <:+:
      (mainRun .linux ⟨true, "sleep", ["60"]⟩
        ⟨.ok (), some 12345, true, some ⟨none, some 2⟩, 0, 0⟩).1 := by
  constructor
  · rfl
  · exact ⟨[.niceAttempt, .spawnAttempt "sleep" ["60"],
      .wakelockCall "sleep" 12345,
      .diagnosticNotice "Linux has no caffeine, sadly.", .handlerInstall],
      [.lockRelease, .exitCall 130], rfl⟩

set_option maxRecDepth 8192 in
/-- C7 counterexample: for a program name containing a double quote, the
Debug formatting escapes it, and the name is no longer a substring of the
details string. -/
theorem wakelock_details_quote_counterexample :
    decide ("a\"b".data <:+: (wakelockDetails "a\"b" 7).data) = false := by
  decide

/-- Helper: a printable ASCII character other than the double quote and
backslash is unchanged by the Debug escaping. -/
theorem rustCharEscapeDebug_eq_self (c : Char) (h1 : 32 ≤ c.toNat)
    (h2 : c.toNat < 127) (h3 : c ≠ '"') (h4 : c ≠ '\\') :
    rustCharEscapeDebug c = [c] := by
  have b3 : c ≠ '\n' := by intro e; rw [e] at h1; exact absurd h1 (by decide)
  have b4 : c ≠ '\t' := by intro e; rw [e] at h1; exact absurd h1 (by decide)
  have b5 : c ≠ '\r' := by intro e; rw [e] at h1; exact absurd h1 (by decide)
  have b6 : c ≠ '\x00' := by intro e; rw [e] at h1; exact absurd h1 (by decide)
  have b7 : ¬(c.toNat < 32 ∨ c.toNat = 127) := by
    intro e
    rcases e with e | e <;> omega
  simp only [rustCharEscapeDebug, if_neg h3, if_neg h4, if_neg b3, if_neg b4,
    if_neg b5, if_neg b6, if_neg b7]

/-- C7 (amended): the details string always contains the child pid in
decimal and always contains the Debug-formatted (quote-wrapped, escaped)
program name; it contains the program name verbatim whenever every
character of the name is a printable ASCII character other than the double
quote and the backslash (i.e. no character Rust's Debug escaping
alters). -/
theorem wakelock_details_mentions_program_and_pid :
    ∀ (process : String) (pid : Nat),
      (toString pid).data <:+: (wakelockDetails process pid).data ∧
      (rustStrDebug process).data <:+: (wakelockDetails process pid).data ∧
      ((∀ c ∈ process.data,
          32 ≤ c.toNat ∧ c.toNat < 127 ∧ c ≠ '"' ∧ c ≠ '\\') →
        process.data <:+: (wakelockDetails process pid).data) := by
  intro process pid
  refine ⟨?_, ?_, ?_⟩
  · refine ⟨("Hi from Rust! We\'re keeping your Mac awake on behalf of " ++
      rustStrDebug process ++ " (pid ").data, ")".data, ?_⟩
    simp [wakelockDetails, strDataAppend]
  · refine ⟨"Hi from Rust! We\'re keeping your Mac awake on behalf of ".data,
      (" (pid " ++ toString pid ++ ")").data, ?_⟩
    simp [wakelockDetails, strDataAppend]
  · intro h
    have hEsc : ∀ c ∈ process.data, rustCharEscapeDebug c = [c] := fun c hc =>
      rustCharEscapeDebug_eq_self c (h c hc).1 (h c hc).2.1
        (h c hc).2.2.1 (h c hc).2.2.2
    refine ⟨"Hi from Rust! We\'re keeping your Mac awake on behalf of ".data ++
      ['"'], ['"'] ++ (" (pid " ++ toString pid ++ ")").data, ?_⟩
    simp [wakelockDetails, rustStrDebug, strDataAppend, flattenMapEscape _ hEsc]

/-- Witness for C7 at a concrete invocation: program `cargo`, pid 42 — the
escape-free condition holds and both the verbatim name and the pid occur in
the details string. -/
theorem wakelock_details_mentions_program_and_pid_witness :
    (∀ c ∈ "cargo".data,
        32 ≤ c.toNat ∧ c.toNat < 127 ∧ c ≠ '"' ∧ c ≠ '\\') ∧
      "cargo".data <:+: (wakelockDetails "cargo" 42).data ∧
      (toString 42).data <:+: (wakelockDetails "cargo" 42).data :=
  ⟨by decide,
    (wakelock_details_mentions_program_and_pid "cargo" 42).2.2 (by decide),
    (wakelock_details_mentions_program_and_pid "cargo" 42).1⟩

/-- C8: on Linux, the wakelock call performs no sleep-prevention OS call; it
only emits the diagnostic notice on stderr and returns. -/
theorem wakelock_unsupported_linux :
    ∀ (process : String) (pid : Nat) (st : Int) (idv : Nat),
      wakelockRun .linux process pid st idv =
        [.wakelockCall process pid,
          .diagnosticNotice "Linux has no caffeine, sadly."] ∧
      ((wakelockRun .linux process pid st idv).all
        fun ev => !isSleepPreventionCall ev) = true :=
  fun _ _ _ _ => ⟨rfl, rfl⟩

/-- C9 counterexample: a run in which the handler fires and its SIGINT
delivery fails (child pid 12345, child already exited with code 0): the
handler panics with the context message, yet the supervisor terminates
normally with exit code 0 — not the claimed abrupt abnormal termination of
the whole supervisor. -/
theorem handler_panic_supervisor_exits_normally :
    (runWithInterrupt .linux ⟨false, "sleep", ["60"]⟩
        ⟨.ok (), some 12345, true, some ⟨some 0, none⟩, 0, 0⟩
        12345 false).handlerResult =
      .panicked "Unable to kill the program" ∧
    (runWithInterrupt .linux ⟨false, "sleep", ["60"]⟩
        ⟨.ok (), some 12345, true, some ⟨some 0, none⟩, 0, 0⟩
        12345 false).outcome = .exitCode 0 :=
  ⟨rfl, rfl⟩

/-- C9 (amended): when the handler fires and SIGINT delivery fails, the
failure is surfaced with the context message `Unable to kill the program`
and abruptly terminates the handler itself — the `unwrap()` panic unwinds
ctrlc's dedicated handler thread, never silently swallowing the error —
while the supervisor's main thread is unaffected: its trace and outcome
(wait, exit translation) are the same as if delivery had succeeded. -/
theorem handler_failure_confined_to_handler :
    ∀ (plat : Platform) (inv : Invocation) (env : RunEnv) (childPid : Nat),
      (runWithInterrupt plat inv env childPid false).handlerResult =
        .panicked "Unable to kill the program" ∧
      (runWithInterrupt plat inv env childPid false).handlerEvents =
        [.lockAcquire, .readPid, .lockRelease, .sigintAttempt childPid] ∧
      (runWithInterrupt plat inv env childPid false).outcome =
        (mainRun plat inv env).2 ∧
      (runWithInterrupt plat inv env childPid false).mainEvents =
        (runWithInterrupt plat inv env childPid true).mainEvents ∧
      (runWithInterrupt plat inv env childPid false).outcome =
        (runWithInterrupt plat inv env childPid true).outcome :=
  fun _ _ _ _ => ⟨rfl, rfl, rfl, rfl, rfl⟩

/-- C10: the wakelock is best-effort — the macOS path discards the assertion
status and id, so `wakelock` produces the same events and `main` behaves
identically whatever the assertion-creation call returned. -/
theorem wakelock_failure_never_fatal :
    ∀ (plat : Platform) (process : String) (pid : Nat) (s₁ s₂ : Int)
        (i₁ i₂ : Nat) (inv : Invocation) (nice : Except (Option Int) Unit)
        (spawn : Option Nat) (install : Bool) (wait : Option ChildStatus),
      wakelockRun plat process pid s₁ i₁ = wakelockRun plat process pid s₂ i₂ ∧
      mainRun plat inv ⟨nice, spawn, install, wait, s₁, i₁⟩ =
        mainRun plat inv ⟨nice, spawn, install, wait, s₂, i₂⟩ := by
  intro plat process pid s₁ s₂ i₁ i₂ inv nice spawn install wait
  obtain ⟨caf, prog, argv⟩ := inv
  constructor
  · cases plat <;> rfl
  · cases nice <;> cases spawn <;> cases caf <;> cases plat <;>
      cases install <;> cases wait <;> rfl

end Nicer
